import Mathlib

/-! Verification development for the News-Scraper core: link discovery,
article-detail scraping and sentiment aggregation, modelled shallowly from
src/api/scraper.py and src/api/sentiment_analysis.py.

Python strings are modelled as Lean strings manipulated through their
character lists, so every operation is a structural recursion the kernel can
evaluate.  The external HTTP + HTML layer (requests + BeautifulSoup) is
modelled by structured page values: a fetch function returns an exceptional
result standing for the network call plus parse, and an `Except.error` value
stands for any exception raised there.  Compound polarity scores (Python
floats in practice) are modelled as rationals, and the lexicon scorer is an
abstract function from a text unit to its compound score. -/

namespace NewsScraper

/-- Embedding of Python str.strip (and BeautifulSoup get_text with strip=True
for an element holding one text run): drop leading and trailing whitespace. -/
def pyStrip (s : String) : String :=
  String.mk (((s.data.dropWhile Char.isWhitespace).reverse.dropWhile Char.isWhitespace).reverse)

/-- Embedding of Python str.upper, character-wise (the scraped site's titles
and markers are ASCII, where Char.toUpper agrees with Python). -/
def pyUpper (s : String) : String := String.mk (s.data.map Char.toUpper)

/-- Embedding of Python str.lower, character-wise. -/
def pyLower (s : String) : String := String.mk (s.data.map Char.toLower)

/-- Embedding of Python str.startswith. -/
def pyStartsWith (s p : String) : Bool := p.data.isPrefixOf s.data

/-- Substring occurrence on character lists, scanning left to right. -/
def listHasSub : List Char → List Char → Bool
  | [], pat => pat.isEmpty
  | c :: t, pat => pat.isPrefixOf (c :: t) || listHasSub t pat

/-- Embedding of the Python containment test pat in s. -/
def pyContains (s pat : String) : Bool := listHasSub s.data pat.data

/-- ASCII letter test, by character code: a dash z or A dash Z.  A string
with no letters at all (digits, punctuation, spaces) is exactly a string
every character of which fails this test. -/
def isAsciiLetter (c : Char) : Bool :=
  (97 ≤ c.toNat && c.toNat ≤ 122) || (65 ≤ c.toNat && c.toNat ≤ 90)

/-- Scanner for Python str.split with a non-empty separator.  The recursion is
indexed by fuel; fuel at least the length of the remaining text never runs
out, because each step consumes at least one character. -/
def pySplitAux (sep : List Char) : List Char → List Char → Nat → List (List Char)
  | rest, acc, 0 => [acc.reverse ++ rest]
  | [], acc, _ + 1 => [acc.reverse]
  | c :: t, acc, fuel + 1 =>
    if sep.isPrefixOf (c :: t) then
      acc.reverse :: pySplitAux sep (List.drop sep.length (c :: t)) [] fuel
    else
      pySplitAux sep t (c :: acc) fuel

/-- Embedding of Python s.split(sep) for a non-empty separator. -/
def pySplit (s sep : String) : List String :=
  (pySplitAux sep.data s.data [] s.data.length).map String.mk

/-! Sentiment aggregation, from src/api/sentiment_analysis.py. -/

/-- Result of analyse_sentiment: the summed compound score and its
classification. -/
structure SentimentResult where
  weighted_sum : ℚ
  overall_sentiment : String
deriving DecidableEq

/-- One entry of the list returned by classify for a single text unit. -/
structure UnitSentiment where
  label : String
  score : ℚ
deriving DecidableEq

/-- Embedding of classify (sentiment_analysis.py lines 22-26): obtain the
compound polarity score of one unit from the scorer and label the unit
POSITIVE when the score is nonnegative, NEGATIVE otherwise. -/
def classify (scorer : String → ℚ) (data : String) : List UnitSentiment :=
  [{ label := if scorer data ≥ 0 then "POSITIVE" else "NEGATIVE", score := scorer data }]

/-- Python values a record field can hold, as far as truthiness and the
aggregator are concerned; pynone also stands for a missing field, since
dict.get returns None for it. -/
inductive PyVal where
  | pynone
  | pystr (s : String)
  | pyint (n : Int)
  | pybool (b : Bool)
deriving DecidableEq

/-- Embedding of the Python truthiness test not x. -/
def pyFalsy : PyVal → Bool
  | .pynone => true
  | .pystr s => s == ""
  | .pyint n => n == 0
  | .pybool b => !b

/-- An article record as the aggregator reads it: the value of
data.get with key content. -/
structure ArticleData where
  content : PyVal

/-- Fan-in phase of analyse_sentiment (lines 35-58) applied to the sentence
units in the order they are gathered: score each unit, flatten the singleton
score lists, sum the compound scores and classify the sum. -/
def aggregate (scorer : String → ℚ) (units : List String) : SentimentResult :=
  let sentiment_result := units.map (classify scorer)
  let sentiment_flattened := sentiment_result.flatten
  let scores := sentiment_flattened.map UnitSentiment.score
  let weighted_sum := scores.sum
  { weighted_sum := weighted_sum
    overall_sentiment :=
      if weighted_sum = 0 then "NEUTRAL"
      else if weighted_sum > 0 then "POSITIVE"
      else "NEGATIVE" }

/-- Embedding of analyse_sentiment (sentiment_analysis.py lines 28-58).  A
falsy content field returns the neutral result before any scoring.  A truthy
string is split on the literal delimiter and aggregated.  A truthy non-string
would raise AttributeError at the split call, modelled as none. -/
def analyse_sentiment (scorer : String → ℚ) (data : ArticleData) : Option SentimentResult :=
  if pyFalsy data.content then
    some { weighted_sum := 0, overall_sentiment := "NEUTRAL" }
  else
    match data.content with
    | .pystr c => some (aggregate scorer (pySplit c ". "))
    | _ => none

/-! Link discovery and detail scraping, from src/api/scraper.py. -/

/-- An anchor element as discovery sees it: its inner text (before
get_text with strip=True) and its optional href attribute. -/
structure Anchor where
  raw_text : String
  href : Option String
deriving DecidableEq

/-- A discovered candidate [text, href, tag].  A missing href appended by
tag-scoped discovery is modelled as the empty string, which has the same
truthiness as None in every later use. -/
structure Candidate where
  title : String
  url : String
  tag : String
deriving DecidableEq

/-- Site origin prefixed to relative hrefs (scraper.py line 51). -/
def siteOrigin : String := "https://www.thestar.com.my"

/-- News root required of unscoped candidates (scraper.py line 62). -/
def newsRoot : String := "https://www.thestar.com.my/news/"

/-- Excluded category segments (scraper.py line 40). -/
def exclude_list : List String :=
  ["/lifestyle/", "/food/", "/tech/", "/travel/", "/business/", "/entertainment/", "/culture/"]

/-- Embedding of href.split at the fragment mark, first component, then at the
query mark, first component (scraper.py line 54): cut at the first fragment
or query character. -/
def stripFragQuery (href : String) : String :=
  String.mk ((href.data.takeWhile (fun c => c ≠ '#')).takeWhile (fun c => c ≠ '?'))

/-- Loop body of get_article_to_scrape (scraper.py lines 42-69), threading the
collected articles and the seen_hrefs set through the anchor list. -/
def unscopedStep (acc : List Candidate × List String) (a : Anchor) :
    List Candidate × List String :=
  let text := pyStrip a.raw_text
  match a.href with
  | none => acc
  | some href0 =>
    if href0 = "" ∨ text = "" ∨ text.length < 15 then acc
    else
      let href1 := if pyStartsWith href0 "http" then href0 else siteOrigin ++ href0
      let href := stripFragQuery href1
      if href ∈ acc.2 then acc
      else if pyStartsWith href newsRoot = true ∧ pyUpper text ≠ text ∧
          exclude_list.any (fun x => pyContains (pyLower href) x) = false then
        (acc.1 ++ [{ title := text, url := href, tag := "" }], acc.2 ++ [href])
      else acc

/-- Embedding of get_article_to_scrape (scraper.py lines 22-72): on a
successful fetch and parse of the listing page the anchors found in the story
containers are validated, normalized, deduplicated and filtered; any
exception is caught and logged, leaving the article list empty. -/
def get_article_to_scrape (page : Except String (List Anchor)) : List Candidate :=
  match page with
  | .error _ => []
  | .ok anchors => (anchors.foldl unscopedStep ([], [])).1

/-- Postconditions that the unscoped filter establishes for every candidate
it accepts: minimum title length, an absolute fragment-free and query-free
URL under the news root, a title that upper-casing changes, and no excluded
category segment in the lower-cased URL. -/
def filteredCand (c : Candidate) : Prop :=
  15 ≤ c.title.length ∧
  pyStartsWith c.url "http" = true ∧
  (∀ ch ∈ c.url.data, ch ≠ '#' ∧ ch ≠ '?') ∧
  pyStartsWith c.url newsRoot = true ∧
  pyUpper c.title ≠ c.title ∧
  (∀ x ∈ exclude_list, pyContains (pyLower c.url) x = false)

/-- Candidate built from one anchor by tag-scoped discovery (scraper.py lines
88-93): the href is absolutized when present, truthy and relative, and the
anchor is appended unconditionally — no length, dedup or category filter. -/
def tagCandidate (tag : String) (a : Anchor) : Candidate :=
  let text := pyStrip a.raw_text
  let href :=
    match a.href with
    | none => ""
    | some h => if h ≠ "" ∧ pyStartsWith h "http" = false then siteOrigin ++ h else h
  { title := text, url := href, tag := tag }

/-- Embedding of get_articles_to_scrape_by_tag (scraper.py lines 74-96): for
each tag, fetch the tag listing page and append one candidate per timeline
anchor; a failed request or parse for one tag is caught and logged and
contributes nothing, leaving candidates of other tags untouched. -/
def get_articles_to_scrape_by_tag (urlWithTag : String) (tags : List String)
    (fetch : String → Except String (List Anchor)) (init : List Candidate) : List Candidate :=
  tags.foldl (fun acc tag =>
    match fetch (urlWithTag ++ tag) with
    | .error _ => acc
    | .ok anchors => acc ++ anchors.map (tagCandidate tag)) init

/-- Candidate contribution of one tag-scoped discovery request, in isolation:
empty when the request fails, one candidate per anchor otherwise. -/
def tagContribution (urlWithTag tag : String)
    (fetch : String → Except String (List Anchor)) : List Candidate :=
  match fetch (urlWithTag ++ tag) with
  | .error _ => []
  | .ok anchors => anchors.map (tagCandidate tag)

/-- A fetched article page as the extractor reads it: the text of the first
kicker element, the text of the first date element, and the raw texts of the
paragraph elements inside the story-body container, in document order. -/
structure DetailPage where
  kicker : Option String
  date : Option String
  story_body : Option (List String)
deriving DecidableEq

/-- A fully extracted article record (scrape_details output). -/
structure Record where
  name : String
  url : String
  category : String
  published_date : String
  content : String
  tag : String
deriving DecidableEq

/-- Boilerplate markers excluded from article content (scraper.py line 134). -/
def boilerplate_markers : List String :=
  ["advertisement", "subscribe", "read also", "related story", "watching:"]

/-- Paragraph filter of scrape_details (scraper.py lines 132-134): keep a
stripped paragraph text when it is truthy, longer than 10 characters, and its
lower-cased form contains no boilerplate marker. -/
def keepParagraph (text : String) : Bool :=
  (text != "") && (text.length > 10) &&
    !(boilerplate_markers.any (fun x => pyContains (pyLower text) x))

/-- The same filter as the spec words it: trimmed length exceeding 10
characters and no case-insensitive boilerplate marker occurrence. -/
def specKeepParagraph (text : String) : Bool :=
  (text.length > 10) &&
    !(boilerplate_markers.any (fun x => pyContains (pyLower text) x))

/-- Embedding of scrape_details (scraper.py lines 111-141): populate the
record from the parsed page, degrading missing kicker or date to Unknown and
a missing story-body container to empty content. -/
def scrape_details (soup : DetailPage) (name url tag : String) : Record :=
  { name := name
    url := url
    category :=
      match soup.kicker with
      | some t => t
      | none => "Unknown"
    published_date :=
      match soup.date with
      | some t => pyStrip t
      | none => "Unknown"
    content :=
      match soup.story_body with
      | some ps => String.intercalate " " ((ps.map pyStrip).filter keepParagraph)
      | none => ""
    tag := tag }

/-- Embedding of get_articles_details (scraper.py lines 98-109) acting on the
shared state (records so far, log entries so far): a successful fetch and
parse appends the extracted record; any exception is caught and appends a log
entry instead. -/
def get_articles_details (fetch : String → Except String DetailPage)
    (st : List Record × List String) (article : Candidate) : List Record × List String :=
  match fetch article.url with
  | .ok soup =>
      (st.1 ++ [scrape_details soup article.title article.url article.tag], st.2)
  | .error e =>
      (st.1, st.2 ++ ["Error encountered while requesting for article " ++ article.url ++ ": " ++ e])

/-- Embedding of thread_scrape_details (scraper.py lines 143-150): candidates
with a falsy url are filtered out, the rest are processed by
get_articles_details.  The worker pool's completion order is abstracted to
sequential order; the claims checked below concern only counts and
membership, which completion order cannot change. -/
def thread_scrape_details (fetch : String → Except String DetailPage)
    (articles : List Candidate) : List Record × List String :=
  (articles.filter (fun a => a.url != "")).foldl (get_articles_details fetch) ([], [])

/-! Helper lemmas shared by the claim theorems. -/

/-- Scoring each unit with classify and flattening the singleton result lists
yields exactly one compound score per unit, in unit order. -/
theorem scores_of_classify (scorer : String → ℚ) :
    ∀ units : List String,
      ((units.map (classify scorer)).flatten.map UnitSentiment.score) = units.map scorer := by
  intro units
  induction units with
  | nil => rfl
  | cons u t ih => simp [classify, ih]

/-- The weighted sum produced by the fan-in phase is the plain sum of the
per-unit compound scores. -/
theorem aggregate_weighted_sum (scorer : String → ℚ) (units : List String) :
    (aggregate scorer units).weighted_sum = (units.map scorer).sum := by
  simp only [aggregate, scores_of_classify]

/-- The overall classification produced by the fan-in phase is determined by
the sign of the sum of the per-unit compound scores. -/
theorem aggregate_overall (scorer : String → ℚ) (units : List String) :
    (aggregate scorer units).overall_sentiment =
      (if (units.map scorer).sum = 0 then "NEUTRAL"
       else if (units.map scorer).sum > 0 then "POSITIVE"
       else "NEGATIVE") := by
  simp only [aggregate, scores_of_classify]

/-- The fan-in result depends on the unit list only through the sum of the
per-unit compound scores. -/
theorem aggregate_eq_of_sum_eq (scorer : String → ℚ) (u1 u2 : List String)
    (h : (u1.map scorer).sum = (u2.map scorer).sum) :
    aggregate scorer u1 = aggregate scorer u2 := by
  simp only [aggregate, scores_of_classify, h]

/-- C1: for an article record whose content is a non-empty string, the
aggregator splits the content on the literal delimiter, obtains one compound
score per unit from the scorer, returns a weighted sum equal to the plain
arithmetic sum of the per-unit scores (no division by the unit count), and
classifies the sum as NEUTRAL exactly at 0, POSITIVE above 0 and NEGATIVE
below 0. -/
theorem c1_aggregator_splits_sums_and_signs (scorer : String → ℚ) (c : String) (h : c ≠ "") :
    ∃ r, analyse_sentiment scorer ⟨.pystr c⟩ = some r ∧
      r.weighted_sum = ((pySplit c ". ").map scorer).sum ∧
      (r.weighted_sum = 0 → r.overall_sentiment = "NEUTRAL") ∧
      (0 < r.weighted_sum → r.overall_sentiment = "POSITIVE") ∧
      (r.weighted_sum < 0 → r.overall_sentiment = "NEGATIVE") := by
  have hc : (c == "") = false := by simpa using h
  refine ⟨aggregate scorer (pySplit c ". "), ?_, aggregate_weighted_sum .., ?_, ?_, ?_⟩
  · simp [analyse_sentiment, pyFalsy, hc]
  · intro h0
    rw [aggregate_overall, aggregate_weighted_sum] at *
    simp [h0]
  · intro hpos
    rw [aggregate_overall, aggregate_weighted_sum] at *
    rw [if_neg hpos.ne.symm, if_pos hpos]
  · intro hneg
    rw [aggregate_overall, aggregate_weighted_sum] at *
    rw [if_neg hneg.ne, if_neg (not_lt.2 hneg.le)]

/-- Witness for C1 at a concrete two-unit content and a concrete scorer. -/
theorem c1_witness :
    ("up. down" : String) ≠ "" ∧
    (∃ r, analyse_sentiment (fun s => (s.length : ℚ) - 3) ⟨.pystr "up. down"⟩ = some r ∧
      r.weighted_sum = ((pySplit "up. down" ". ").map (fun s => (s.length : ℚ) - 3)).sum ∧
      (r.weighted_sum = 0 → r.overall_sentiment = "NEUTRAL") ∧
      (0 < r.weighted_sum → r.overall_sentiment = "POSITIVE") ∧
      (r.weighted_sum < 0 → r.overall_sentiment = "NEGATIVE")) :=
  ⟨by decide, c1_aggregator_splits_sums_and_signs (fun s => (s.length : ℚ) - 3) "up. down" (by decide)⟩

/-- C5: an article record whose content is the empty string gets the neutral
result immediately, and the result does not depend on the scorer at all,
reflecting that the scorer is never invoked. -/
theorem c5_empty_content_short_circuits (scorer scorer2 : String → ℚ) :
    analyse_sentiment scorer ⟨.pystr ""⟩ =
        some { weighted_sum := 0, overall_sentiment := "NEUTRAL" } ∧
    analyse_sentiment scorer ⟨.pystr ""⟩ = analyse_sentiment scorer2 ⟨.pystr ""⟩ :=
  ⟨rfl, rfl⟩

/-- C8: the aggregation outcome is independent of the order in which the
concurrent per-unit scoring completes: feeding the fan-in phase any
permutation of the sentence units yields the same weighted sum and the same
overall classification, and agrees with the aggregator run on the content
itself, so two runs on the same content with the same deterministic scorer
give identical results. -/
theorem c8_result_independent_of_scheduling (scorer : String → ℚ) (c : String)
    (u1 u2 : List String) (h1 : List.Perm u1 (pySplit c ". "))
    (h2 : List.Perm u2 (pySplit c ". ")) :
    aggregate scorer u1 = aggregate scorer u2 ∧
    (c ≠ "" → analyse_sentiment scorer ⟨.pystr c⟩ = some (aggregate scorer u1)) := by
  have key : ∀ u : List String, List.Perm u (pySplit c ". ") →
      aggregate scorer u = aggregate scorer (pySplit c ". ") := fun u hu =>
    aggregate_eq_of_sum_eq scorer u (pySplit c ". ") (hu.map scorer).sum_eq
  refine ⟨(key u1 h1).trans (key u2 h2).symm, fun hc => ?_⟩
  have hcb : (c == "") = false := by simpa using hc
  simp [analyse_sentiment, pyFalsy, hcb, key u1 h1]

/-- Witness for C8 at a concrete content whose two units are rescheduled. -/
theorem c8_witness :
    List.Perm ["b", "a"] (pySplit "a. b" ". ") ∧
    List.Perm ["a", "b"] (pySplit "a. b" ". ") ∧
    aggregate (fun s => (s.length : ℚ)) ["b", "a"] = aggregate (fun s => (s.length : ℚ)) ["a", "b"] :=
  ⟨by decide, by decide,
    (c8_result_independent_of_scheduling (fun s => (s.length : ℚ)) "a. b" ["b", "a"] ["a", "b"]
      (by decide) (by decide)).1⟩

/-- C9: for a record with no content field at all (dict.get gives None) or
with any falsy content value, the aggregator is total, returns the neutral
result, and never consults the scorer. -/
theorem c9_falsy_content_is_total_and_neutral (scorer : String → ℚ) (v : PyVal)
    (h : pyFalsy v = true) :
    analyse_sentiment scorer ⟨v⟩ =
        some { weighted_sum := 0, overall_sentiment := "NEUTRAL" } ∧
    ∀ scorer2, analyse_sentiment scorer ⟨v⟩ = analyse_sentiment scorer2 ⟨v⟩ := by
  refine ⟨?_, fun scorer2 => ?_⟩ <;> simp [analyse_sentiment, h]

/-- Witness for C9 at a missing content field and at a falsy non-string. -/
theorem c9_witness :
    (pyFalsy PyVal.pynone = true ∧
      analyse_sentiment (fun _ => 1) ⟨PyVal.pynone⟩ =
        some { weighted_sum := 0, overall_sentiment := "NEUTRAL" }) ∧
    (pyFalsy (PyVal.pyint 0) = true ∧
      analyse_sentiment (fun _ => 1) ⟨PyVal.pyint 0⟩ =
        some { weighted_sum := 0, overall_sentiment := "NEUTRAL" }) :=
  ⟨⟨by decide, (c9_falsy_content_is_total_and_neutral (fun _ => 1) PyVal.pynone (by decide)).1⟩,
   ⟨by decide, (c9_falsy_content_is_total_and_neutral (fun _ => 1) (PyVal.pyint 0) (by decide)).1⟩⟩

/-- An ASCII non-letter is a fixed point of upper-casing. -/
theorem toUpper_eq_of_not_letter {c : Char} (h : isAsciiLetter c = false) : c.toUpper = c := by
  have h' : ¬ (c.toNat ≥ 97 ∧ c.toNat ≤ 122) := by
    intro hc
    simp [isAsciiLetter] at h
    omega
  unfold Char.toUpper
  simp [h']

/-- A string with no letters at all is unchanged by upper-casing. -/
theorem pyUpper_eq_of_no_letter {s : String} (h : s.data.any isAsciiLetter = false) :
    pyUpper s = s := by
  have hall : ∀ c ∈ s.data, Char.toUpper c = c := fun c hc =>
    toUpper_eq_of_not_letter (by simpa using List.any_eq_false.1 h c hc)
  unfold pyUpper
  rw [List.map_congr_left hall]
  cases s
  simp

/-- Cutting a URL at the first fragment or query mark leaves no fragment or
query character in the result. -/
theorem stripFragQuery_no_marks (href : String) :
    ∀ ch ∈ (stripFragQuery href).data, ch ≠ '#' ∧ ch ≠ '?' := by
  intro ch hch
  have hch2 : ch ∈ (href.data.takeWhile (fun c => c ≠ '#')).takeWhile (fun c => c ≠ '?') := hch
  refine ⟨?_, by simpa using List.mem_takeWhile_imp hch2⟩
  have hmem : ch ∈ href.data.takeWhile (fun c => c ≠ '#') :=
    (List.takeWhile_sublist _).subset hch2
  simpa using List.mem_takeWhile_imp hmem

/-- A URL under the news root is in particular absolute. -/
theorem pyStartsWith_newsRoot_absolute {s : String} (h : pyStartsWith s newsRoot = true) :
    pyStartsWith s "http" = true := by
  have h1 : ("http" : String).data <+: newsRoot.data := List.isPrefixOf_iff_prefix.1 (by decide)
  have h2 : newsRoot.data <+: s.data := List.isPrefixOf_iff_prefix.1 h
  exact List.isPrefixOf_iff_prefix.2 (h1.trans h2)

/-- One unscoped loop step only ever appends candidates satisfying the filter
postconditions. -/
theorem unscopedStep_filtered (acc : List Candidate × List String) (a : Anchor)
    (h : ∀ c ∈ acc.1, filteredCand c) :
    ∀ c ∈ (unscopedStep acc a).1, filteredCand c := by
  intro c hc
  dsimp only [unscopedStep] at hc
  split at hc
  · exact h c hc
  · split_ifs at hc with hg hh hs hcnd hs2 hcnd2 <;>
      try exact h c hc
    all_goals
      simp only [List.mem_append, List.mem_singleton] at hc
      rcases hc with hOld | rfl
      · exact h c hOld
      · obtain ⟨hroot, hupper, hexcl⟩ := ‹_ ∧ _ ∧ _›
        refine ⟨?_, pyStartsWith_newsRoot_absolute hroot, stripFragQuery_no_marks _,
          hroot, hupper, ?_⟩
        · show 15 ≤ (pyStrip a.raw_text).length
          push_neg at hg
          omega
        · intro x hx
          simpa using List.any_eq_false.1 hexcl x hx

/-- Appending one candidate whose URL is not yet in the seen set preserves
both halves of the dedup invariant. -/
theorem dedup_accept {cands : List Candidate} {seen : List String} {text href : String}
    (h1 : (cands.map Candidate.url).Nodup) (h2 : ∀ c ∈ cands, c.url ∈ seen)
    (hs : href ∉ seen) :
    ((cands ++ [({ title := text, url := href, tag := "" } : Candidate)]).map Candidate.url).Nodup ∧
      ∀ c ∈ cands ++ [({ title := text, url := href, tag := "" } : Candidate)],
        c.url ∈ seen ++ [href] := by
  constructor
  · rw [List.map_append, List.nodup_append]
    refine ⟨h1, by simp, ?_⟩
    intro u hu hu2
    simp only [List.map_cons, List.map_nil, List.mem_singleton] at hu2
    subst hu2
    obtain ⟨c, hc, hcu⟩ := List.mem_map.1 hu
    exact hs (hcu ▸ h2 c hc)
  · intro c hc
    rcases List.mem_append.1 hc with hOld | hNew
    · exact List.mem_append_left _ (h2 c hOld)
    · rw [List.mem_singleton.1 hNew]
      exact List.mem_append_right _ (List.mem_singleton.2 rfl)

/-- One unscoped loop step preserves the dedup invariant: collected URLs stay
pairwise distinct and all lie in the seen set. -/
theorem unscopedStep_dedup (acc : List Candidate × List String) (a : Anchor)
    (h : ((acc.1.map Candidate.url).Nodup ∧ ∀ c ∈ acc.1, c.url ∈ acc.2)) :
    (((unscopedStep acc a).1.map Candidate.url).Nodup ∧
      ∀ c ∈ (unscopedStep acc a).1, c.url ∈ (unscopedStep acc a).2) := by
  dsimp only [unscopedStep]
  split
  · exact h
  · split_ifs with hg hh hs hcnd hs2 hcnd2 <;>
      first
      | exact h
      | exact dedup_accept h.1 h.2 (by assumption)

/-- The filter postconditions are an invariant of the whole unscoped fold. -/
theorem foldl_unscoped_filtered :
    ∀ (l : List Anchor) (acc : List Candidate × List String),
      (∀ c ∈ acc.1, filteredCand c) → ∀ c ∈ (l.foldl unscopedStep acc).1, filteredCand c := by
  intro l
  induction l with
  | nil => intro acc h; exact h
  | cons a t ih =>
    intro acc h
    rw [List.foldl_cons]
    exact ih _ (unscopedStep_filtered acc a h)

/-- The dedup invariant holds across the whole unscoped fold. -/
theorem foldl_unscoped_dedup :
    ∀ (l : List Anchor) (acc : List Candidate × List String),
      ((acc.1.map Candidate.url).Nodup ∧ ∀ c ∈ acc.1, c.url ∈ acc.2) →
      (((l.foldl unscopedStep acc).1.map Candidate.url).Nodup ∧
        ∀ c ∈ (l.foldl unscopedStep acc).1, c.url ∈ (l.foldl unscopedStep acc).2) := by
  intro l
  induction l with
  | nil => intro acc h; exact h
  | cons a t ih =>
    intro acc h
    rw [List.foldl_cons]
    exact ih _ (unscopedStep_dedup acc a h)

/-- Every candidate of an unscoped discovery pass satisfies the filter
postconditions. -/
theorem mem_get_article_filtered {page : Except String (List Anchor)} {c : Candidate}
    (hc : c ∈ get_article_to_scrape page) : filteredCand c := by
  cases page with
  | error e => simp [get_article_to_scrape] at hc
  | ok anchors => exact foldl_unscoped_filtered anchors ([], []) (by simp) c hc

/-- C2 counterexample: a single tag-scoped discovery pass over a page holding
the same anchor twice yields two candidates with the same normalized URL, so
the dedup invariant does not hold in tag-scoped mode. -/
theorem c2_counterexample :
    ¬ ((get_articles_to_scrape_by_tag "https://www.thestar.com.my/news/latest?tag=" ["golf"]
        (fun _ => Except.ok
          [⟨"Some golf headline", some "/news/sport/2026/01/01/golf-a"⟩,
           ⟨"Some golf headline", some "/news/sport/2026/01/01/golf-a"⟩]) []).map
        Candidate.url).Nodup := by
  decide

/-- C2 (amended): within a single unscoped discovery pass no two candidates
share the same normalized URL, first occurrence winning; tag-scoped discovery
performs no deduplication, as the counterexample shows. -/
theorem c2_unscoped_dedup_invariant (page : Except String (List Anchor)) :
    ((get_article_to_scrape page).map Candidate.url).Nodup := by
  cases page with
  | error e => simp [get_article_to_scrape]
  | ok anchors => exact (foldl_unscoped_dedup anchors ([], []) (by simp)).1

/-- C3: every candidate produced by unscoped discovery has a title of at
least the minimum 15 characters, an absolute URL with fragment and query
components stripped falling under the news root, a title that is not
entirely upper-case, and a URL containing none of the excluded category
segments. -/
theorem c3_unscoped_filter_postconditions (page : Except String (List Anchor))
    (c : Candidate) (hc : c ∈ get_article_to_scrape page) :
    15 ≤ c.title.length ∧
    pyStartsWith c.url "http" = true ∧
    (∀ ch ∈ c.url.data, ch ≠ '#' ∧ ch ≠ '?') ∧
    pyStartsWith c.url newsRoot = true ∧
    pyUpper c.title ≠ c.title ∧
    (∀ x ∈ exclude_list, pyContains (pyLower c.url) x = false) :=
  mem_get_article_filtered hc

/-- Witness for C3 on a one-anchor listing page with a relative href carrying
a query component. -/
theorem c3_witness :
    (⟨"Parliament passes new safety bill",
        "https://www.thestar.com.my/news/nation/2026/01/02/safety-bill", ""⟩ : Candidate) ∈
      get_article_to_scrape (Except.ok
        [⟨"Parliament passes new safety bill",
          some "/news/nation/2026/01/02/safety-bill?utm=1"⟩]) ∧
    (15 ≤ ("Parliament passes new safety bill" : String).length ∧
      pyStartsWith "https://www.thestar.com.my/news/nation/2026/01/02/safety-bill" "http" = true ∧
      (∀ ch ∈ ("https://www.thestar.com.my/news/nation/2026/01/02/safety-bill" : String).data,
        ch ≠ '#' ∧ ch ≠ '?') ∧
      pyStartsWith "https://www.thestar.com.my/news/nation/2026/01/02/safety-bill" newsRoot = true ∧
      pyUpper "Parliament passes new safety bill" ≠ "Parliament passes new safety bill" ∧
      (∀ x ∈ exclude_list,
        pyContains (pyLower "https://www.thestar.com.my/news/nation/2026/01/02/safety-bill") x = false)) :=
  ⟨by decide,
    c3_unscoped_filter_postconditions
      (Except.ok [⟨"Parliament passes new safety bill",
        some "/news/nation/2026/01/02/safety-bill?utm=1"⟩])
      ⟨"Parliament passes new safety bill",
        "https://www.thestar.com.my/news/nation/2026/01/02/safety-bill", ""⟩
      (by decide)⟩

/-- C10: every candidate produced by unscoped discovery has at least one
ASCII letter in its title, and its title changes under upper-casing; hence an
anchor whose title has no letters at all is unchanged by upper-casing and is
excluded like any entirely upper-case navigation label. -/
theorem c10_no_letter_titles_excluded (page : Except String (List Anchor))
    (c : Candidate) (hc : c ∈ get_article_to_scrape page) :
    c.title.data.any isAsciiLetter = true ∧ pyUpper c.title ≠ c.title := by
  have hupper := (mem_get_article_filtered hc).2.2.2.2.1
  refine ⟨?_, hupper⟩
  by_contra hno
  exact hupper (pyUpper_eq_of_no_letter (Bool.not_eq_true _ ▸ hno))

/-- Witness for C10 on a listing page where a digits-only anchor is indeed
dropped and a lettered headline survives. -/
theorem c10_witness :
    (⟨"Economy grows strongly this quarter",
        "https://www.thestar.com.my/news/nation/2026/03/04/economy-grows", ""⟩ : Candidate) ∈
      get_article_to_scrape (Except.ok
        [⟨"Economy grows strongly this quarter",
          some "/news/nation/2026/03/04/economy-grows"⟩,
         ⟨"2026/03/04 10:15", some "/news/nation/2026/03/04/digits-only-label"⟩]) ∧
    (("Economy grows strongly this quarter" : String).data.any isAsciiLetter = true ∧
      pyUpper "Economy grows strongly this quarter" ≠ "Economy grows strongly this quarter") :=
  ⟨by decide,
    c10_no_letter_titles_excluded
      (Except.ok [⟨"Economy grows strongly this quarter",
          some "/news/nation/2026/03/04/economy-grows"⟩,
        ⟨"2026/03/04 10:15", some "/news/nation/2026/03/04/digits-only-label"⟩])
      ⟨"Economy grows strongly this quarter",
        "https://www.thestar.com.my/news/nation/2026/03/04/economy-grows", ""⟩
      (by decide)⟩

/-- Tag-scoped discovery equals the initial list followed by the
concatenation of the per-tag contributions, each computed from its own fetch
result alone. -/
theorem by_tag_eq_contributions (urlWithTag : String)
    (fetch : String → Except String (List Anchor)) :
    ∀ (tags : List String) (init : List Candidate),
      get_articles_to_scrape_by_tag urlWithTag tags fetch init =
        init ++ (tags.map (fun t => tagContribution urlWithTag t fetch)).flatten := by
  intro tags
  induction tags with
  | nil => intro init; simp [get_articles_to_scrape_by_tag]
  | cons t ts ih =>
    intro init
    have hstep : get_articles_to_scrape_by_tag urlWithTag (t :: ts) fetch init =
        get_articles_to_scrape_by_tag urlWithTag ts fetch
          (match fetch (urlWithTag ++ t) with
           | .error _ => init
           | .ok anchors => init ++ anchors.map (tagCandidate t)) := rfl
    rw [hstep]
    cases hf : fetch (urlWithTag ++ t) with
    | error e => simp [hf, ih, tagContribution]
    | ok anchors => simp [hf, ih, tagContribution, List.append_assoc]

/-- C6: discovery failures are isolated and never propagate.  A tag-scoped
pass is the concatenation of independent per-tag contributions on top of the
candidates already collected; a failed request contributes the empty set; a
failed unscoped pass returns the empty candidate list; and a pass all of
whose requests fail still returns normally with no new candidates. -/
theorem c6_discovery_failure_isolation (urlWithTag : String) (tags : List String)
    (fetch : String → Except String (List Anchor)) (init : List Candidate) (e : String) :
    get_articles_to_scrape_by_tag urlWithTag tags fetch init =
      init ++ (tags.map (fun t => tagContribution urlWithTag t fetch)).flatten ∧
    (∀ t msg, fetch (urlWithTag ++ t) = Except.error msg →
      tagContribution urlWithTag t fetch = []) ∧
    get_article_to_scrape (Except.error e) = [] ∧
    ((∀ t ∈ tags, ∃ msg, fetch (urlWithTag ++ t) = Except.error msg) →
      get_articles_to_scrape_by_tag urlWithTag tags fetch init = init) := by
  refine ⟨by_tag_eq_contributions urlWithTag fetch tags init, ?_, rfl, ?_⟩
  · intro t msg ht
    simp [tagContribution, ht]
  · intro hall
    rw [by_tag_eq_contributions]
    have hnil : (tags.map (fun t => tagContribution urlWithTag t fetch)).flatten = [] := by
      rw [List.flatten_eq_nil_iff]
      intro l hl
      obtain ⟨t, ht, rfl⟩ := List.mem_map.1 hl
      obtain ⟨msg, hm⟩ := hall t ht
      simp [tagContribution, hm]
    rw [hnil, List.append_nil]

/-- Witness for C6: a pass whose only request fails returns its input
unchanged. -/
theorem c6_witness :
    (∀ t ∈ (["golf"] : List String), ∃ msg,
      (fun _ => (Except.error "boom" : Except String (List Anchor)))
          ("https://www.thestar.com.my/news/latest?tag=" ++ t) = Except.error msg) ∧
    get_articles_to_scrape_by_tag "https://www.thestar.com.my/news/latest?tag=" ["golf"]
      (fun _ => Except.error "boom") [] = [] :=
  ⟨fun _ _ => ⟨"boom", rfl⟩,
    (c6_discovery_failure_isolation "https://www.thestar.com.my/news/latest?tag=" ["golf"]
      (fun _ => Except.error "boom") [] "boom").2.2.2 (fun _ _ => ⟨"boom", rfl⟩)⟩

/-- Each processed candidate grows the record list or the log list by exactly
one entry. -/
theorem details_foldl_count (fetch : String → Except String DetailPage) :
    ∀ (l : List Candidate) (st : List Record × List String),
      (l.foldl (get_articles_details fetch) st).1.length +
        (l.foldl (get_articles_details fetch) st).2.length =
      st.1.length + st.2.length + l.length := by
  intro l
  induction l with
  | nil => intro st; simp
  | cons a t ih =>
    intro st
    rw [List.foldl_cons, ih]
    cases hf : fetch a.url with
    | ok soup =>
      simp only [get_articles_details, hf, List.length_append, List.length_cons, List.length_nil]
      omega
    | error e =>
      simp only [get_articles_details, hf, List.length_append, List.length_cons, List.length_nil]
      omega

/-- Every record the fold produces beyond its input state comes from a
candidate whose fetch succeeded. -/
theorem details_foldl_mem (fetch : String → Except String DetailPage) :
    ∀ (l : List Candidate) (st : List Record × List String) (r : Record),
      r ∈ (l.foldl (get_articles_details fetch) st).1 →
      r ∈ st.1 ∨ ∃ soup, fetch r.url = Except.ok soup := by
  intro l
  induction l with
  | nil => intro st r h; exact Or.inl h
  | cons a t ih =>
    intro st r h
    rw [List.foldl_cons] at h
    rcases ih _ r h with hmem | hok
    · cases hf : fetch a.url with
      | ok soup =>
        simp only [get_articles_details, hf, List.mem_append, List.mem_singleton] at hmem
        rcases hmem with h1 | h2
        · exact Or.inl h1
        · subst h2
          exact Or.inr ⟨soup, by simpa [scrape_details] using hf⟩
      | error e =>
        simp only [get_articles_details, hf] at hmem
        exact Or.inl hmem
    · exact Or.inr hok

/-- C7 (amended): the coordinator emits at most one record per input
candidate, every emitted record comes from a candidate whose fetch succeeded
(a failed fetch yields no record and no placeholder), and records plus logged
failures account exactly for the candidates with a truthy URL; candidates
with a falsy URL are filtered out beforehand without any log entry. -/
theorem c7_coordinator_output_bounds (fetch : String → Except String DetailPage)
    (articles : List Candidate) :
    (thread_scrape_details fetch articles).1.length ≤ articles.length ∧
    (∀ r ∈ (thread_scrape_details fetch articles).1, ∃ soup, fetch r.url = Except.ok soup) ∧
    (thread_scrape_details fetch articles).1.length +
        (thread_scrape_details fetch articles).2.length =
      (articles.filter (fun a => a.url != "")).length := by
  have hcount := details_foldl_count fetch (articles.filter (fun a => a.url != "")) ([], [])
  simp only [List.length_nil, Nat.zero_add] at hcount
  refine ⟨?_, ?_, hcount⟩
  · calc (thread_scrape_details fetch articles).1.length
        ≤ (thread_scrape_details fetch articles).1.length +
            (thread_scrape_details fetch articles).2.length := Nat.le_add_right _ _
      _ = (articles.filter (fun a => a.url != "")).length := hcount
      _ ≤ articles.length := List.length_filter_le _ _
  · intro r hr
    rcases details_foldl_mem fetch (articles.filter (fun a => a.url != "")) ([], []) r hr with h | h
    · simp at h
    · exact h

/-- C7 counterexample: one candidate with a falsy URL is dropped producing
neither a record nor a logged failure, so records plus logs do not account
for every input candidate as the claim as stated requires. -/
theorem c7_counterexample :
    (thread_scrape_details (fun _ => Except.error "timeout")
        [⟨"Some headline", "", ""⟩]).1.length +
      (thread_scrape_details (fun _ => Except.error "timeout")
        [⟨"Some headline", "", ""⟩]).2.length ≠
    ([⟨"Some headline", "", ""⟩] : List Candidate).length := by
  decide

/-- Witness for C7 on a one-candidate batch whose fetch succeeds. -/
theorem c7_witness :
    (scrape_details ⟨none, none, none⟩ "Some headline" "https://u" "") ∈
      (thread_scrape_details (fun _ => Except.ok ⟨none, none, none⟩)
        [⟨"Some headline", "https://u", ""⟩]).1 ∧
    ∃ soup, (fun _ => (Except.ok (⟨none, none, none⟩ : DetailPage) : Except String DetailPage))
        (scrape_details ⟨none, none, none⟩ "Some headline" "https://u" "").url = Except.ok soup :=
  ⟨by decide,
    (c7_coordinator_output_bounds (fun _ => Except.ok ⟨none, none, none⟩)
      [⟨"Some headline", "https://u", ""⟩]).2.1
      (scrape_details ⟨none, none, none⟩ "Some headline" "https://u" "") (by decide)⟩

/-- The source paragraph filter agrees with the spec-worded one: the
truthiness test is subsumed by the length bound. -/
theorem keepParagraph_eq_spec (t : String) : keepParagraph t = specKeepParagraph t := by
  by_cases h : t = ""
  · subst h; decide
  · have hb : (t != "") = true := by simpa using h
    simp [keepParagraph, specKeepParagraph, hb]

/-- C4: the extracted content is the space-joined concatenation, in document
order, of exactly those stripped story-body paragraph texts longer than 10
characters that contain no boilerplate marker case-insensitively; a page
with no story-body container yields empty content. -/
theorem c4_content_extraction (soup : DetailPage) (name url tag : String) :
    (soup.story_body = none → (scrape_details soup name url tag).content = "") ∧
    (∀ ps, soup.story_body = some ps →
      (scrape_details soup name url tag).content =
        String.intercalate " " ((ps.map pyStrip).filter specKeepParagraph)) := by
  constructor
  · intro h
    simp [scrape_details, h]
  · intro ps h
    simp only [scrape_details, h]
    rw [show keepParagraph = specKeepParagraph from funext keepParagraph_eq_spec]

/-- Witness for C4 on a page with no story body and on a page whose body
holds a kept paragraph, a short one and a boilerplate one. -/
theorem c4_witness :
    ((scrape_details ⟨none, none, none⟩ "n" "u" "t").content = "" ∧
      (scrape_details
          ⟨none, none, some ["  A long paragraph about regional events.  ", "short",
            "Please subscribe today to our site!"]⟩ "n" "u" "t").content =
        String.intercalate " "
          ((["  A long paragraph about regional events.  ", "short",
            "Please subscribe today to our site!"].map pyStrip).filter specKeepParagraph)) :=
  ⟨(c4_content_extraction ⟨none, none, none⟩ "n" "u" "t").1 rfl,
    (c4_content_extraction
      ⟨none, none, some ["  A long paragraph about regional events.  ", "short",
        "Please subscribe today to our site!"]⟩ "n" "u" "t").2 _ rfl⟩

end NewsScraper
